import Mathlib

/-!
Shallow embedding of the avocado test harness sources:
`avocado/utils/process.py`, `avocado/plugins/gdb.py` and
`avocado/plugins/runner.py`, together with theorems settling the
specification claims about them.

OS interaction is made explicit: the filesystem is a record of the
predicates the code consults (`os.path.isfile`, `os.path.abspath`), the
environment variable `PATH` is an `Option String` (absent key means
`os.environ['PATH']` raises `KeyError`), and a finished child process is a
record of its return code and fully drained output streams (wall-clock
durations are abstracted to integers, since no claim depends on their
arithmetic).
-/

/-! ## Embedding of `avocado/utils/process.py` -/

/-- Filesystem facts consulted by `find_command`: `os.path.isfile` and
`os.path.abspath` (the latter depends on the process working directory,
so it is kept abstract as part of the OS state). -/
structure FS where
  isfile : String → Bool
  abspath : String → String

/-- Exceptions that can escape `find_command`: its own
`CmdNotFoundError(cmd, paths)`, and the `KeyError` raised by
`os.environ['PATH']` when the variable is unset (the source wraps that
lookup in `try ... except IndexError`, which does not catch `KeyError`). -/
inductive FindFailure where
  | CmdNotFoundError (cmd : String) (paths : List String)
  | KeyError (key : String)
deriving DecidableEq, Repr

/-- The fixed list `common_bin_paths` from `find_command`. -/
def common_bin_paths : List String :=
  ["/usr/libexec", "/usr/local/sbin", "/usr/local/bin",
   "/usr/sbin", "/usr/bin", "/sbin", "/bin"]

/-- Helper for `py_split_colon`: accumulates the current field (reversed). -/
def py_split_colon_aux : List Char → List Char → List String
  | [], acc => [String.mk acc.reverse]
  | c :: rest, acc =>
    if c = ':' then String.mk acc.reverse :: py_split_colon_aux rest []
    else py_split_colon_aux rest (c :: acc)

/-- Python `s.split(":")`: splits on every colon, keeping empty fields, and
`"".split(":") == [""]`. -/
def py_split_colon (s : String) : List String :=
  py_split_colon_aux s.toList []

/-- Modelled from the spec: `avocado.utils.misc.unique` is imported by
`find_command` but `avocado/utils/misc.py` is not among the provided
sources; the spec describes the resulting search list as the concatenation
with "duplicates removed preserving first-seen order", which this helper
implements by keeping the first occurrence of each element (`seen` is the
set of elements already emitted). -/
def misc_unique_aux (seen : List String) : List String → List String
  | [] => []
  | x :: xs =>
    if x ∈ seen then misc_unique_aux seen xs
    else x :: misc_unique_aux (x :: seen) xs

/-- Modelled from the spec: order-preserving duplicate removal, see
`misc_unique_aux`. -/
def misc_unique (l : List String) : List String :=
  misc_unique_aux [] l

/-- Python `os.path.join(dir_path, cmd)` for POSIX paths, restricted to two
arguments as `find_command` uses it. -/
def os_path_join (dir_path cmd : String) : String :=
  if cmd.toList.head? == some '/' then cmd
  else if dir_path == "" || dir_path.toList.getLast? == some '/' then dir_path ++ cmd
  else dir_path ++ "/" ++ cmd

/-- The `for dir_path in path_paths:` loop body of `find_command`: returns
the absolute path of the first directory whose join with `cmd` is an
existing regular file. -/
def find_loop (fs : FS) (cmd : String) : List String → Option String
  | [] => none
  | dir_path :: rest =>
    let cmd_path := os_path_join dir_path cmd
    if fs.isfile cmd_path then some (fs.abspath cmd_path)
    else find_loop fs cmd rest

/-- `find_command(cmd)` from `avocado/utils/process.py`. The `PATH`
environment variable is passed explicitly; when it is unset,
`os.environ['PATH']` raises `KeyError`, which the surrounding
`except IndexError` clause does not catch, so the `KeyError` escapes. -/
def find_command (env_path : Option String) (fs : FS) (cmd : String) :
    Except FindFailure String :=
  match env_path with
  | none => Except.error (FindFailure.KeyError "PATH")
  | some path_value =>
    let path_paths := misc_unique (common_bin_paths ++ py_split_colon path_value)
    match find_loop fs cmd path_paths with
    | some found => Except.ok found
    | none => Except.error (FindFailure.CmdNotFoundError cmd path_paths)

/-- A finished child process as `run` observes it: `Popen(...).communicate()`
has returned the fully drained `stdout` and `stderr`, and `returncode` is
the exit status. `duration` abstracts the measured wall-clock time. -/
structure ProcessOutcome where
  returncode : Int
  stdout : String
  stderr : String
  duration : Int
deriving DecidableEq, Repr

/-- The `CmdResult` class: command line, exit status (`None` until the
process terminates), captured streams and duration. -/
structure CmdResult where
  command : String
  exit_status : Option Int
  stdout : String
  stderr : String
  duration : Int
deriving DecidableEq, Repr

/-- The `CmdResult.__init__` defaults when called as `CmdResult(cmd)`:
`exit_status=None`, empty streams, zero duration. -/
def CmdResult.init (command : String) : CmdResult :=
  { command := command, exit_status := none, stdout := "", stderr := "",
    duration := 0 }

/-- The `CmdError(cmd, result)` exception raised by `run` (defined in
`avocado.core.exceptions`): it carries the command line and the full
`CmdResult`. -/
structure CmdError where
  command : String
  result : CmdResult
deriving DecidableEq, Repr

/-- The successive values taken by the local variable `result` in the body
of `run`: constructed as `CmdResult(cmd)`, then `exit_status`, `stdout`,
`stderr` and `duration` are assigned in source order. All assignments
happen after `communicate()` returned, which is reflected by this function
consuming the completed `ProcessOutcome`. -/
def run_result_states (cmd : String) (proc : ProcessOutcome) : List CmdResult :=
  let r0 := CmdResult.init cmd
  let r1 := { r0 with exit_status := some proc.returncode }
  let r2 := { r1 with stdout := proc.stdout }
  let r3 := { r2 with stderr := proc.stderr }
  let r4 := { r3 with duration := proc.duration }
  [r0, r1, r2, r3, r4]

/-- The straight-line statements of `run`'s body, in source order.
`communicate` drains both standard streams and waits for exit;
`assignExitStatus` is the `result.exit_status = p.returncode` line. -/
inductive RunStep where
  | logCommand
  | shlexSplit
  | popen
  | communicate
  | buildResult
  | assignExitStatus
  | assignStdout
  | assignStderr
  | assignDuration
  | classifyStatus
deriving DecidableEq, BEq, Repr

/-- Source order of the statements in the body of `run`. -/
def run_steps : List RunStep :=
  [RunStep.logCommand, RunStep.shlexSplit, RunStep.popen,
   RunStep.communicate, RunStep.buildResult, RunStep.assignExitStatus,
   RunStep.assignStdout, RunStep.assignStderr, RunStep.assignDuration,
   RunStep.classifyStatus]

/-- `run(cmd, verbose, ignore_status)` from `avocado/utils/process.py`,
as a function of the child process outcome. Raising
`CmdError(cmd, result)` is the `Except.error` branch; the `verbose` flag
only controls logging and has no effect on the result. -/
def run (cmd : String) (verbose ignore_status : Bool) (proc : ProcessOutcome) :
    Except CmdError CmdResult :=
  let result : CmdResult :=
    { command := cmd, exit_status := some proc.returncode,
      stdout := proc.stdout, stderr := proc.stderr,
      duration := proc.duration }
  if proc.returncode != 0 && !ignore_status then
    Except.error { command := cmd, result := result }
  else
    Except.ok result

/-- The `CmdResult` that `run` publishes: the returned value on success, or
the one embedded in the raised `CmdError`. -/
def run_published_result (cmd : String) (verbose ignore_status : Bool)
    (proc : ProcessOutcome) : CmdResult :=
  match run cmd verbose ignore_status proc with
  | Except.ok r => r
  | Except.error e => e.result

/-- `system(cmd, verbose, ignore_status)`: runs `run` with the same
arguments and returns `cmd_result.exit_status`. -/
def system (cmd : String) (verbose ignore_status : Bool)
    (proc : ProcessOutcome) : Except CmdError (Option Int) :=
  match run cmd verbose ignore_status proc with
  | Except.error e => Except.error e
  | Except.ok cmd_result => Except.ok cmd_result.exit_status

/-- `system_output(cmd, verbose, ignore_status)`: runs `run` with the same
arguments and returns `cmd_result.stdout`. -/
def system_output (cmd : String) (verbose ignore_status : Bool)
    (proc : ProcessOutcome) : Except CmdError String :=
  match run cmd verbose ignore_status proc with
  | Except.error e => Except.error e
  | Except.ok cmd_result => Except.ok cmd_result.stdout

/-! ## Embedding of the job-id validation in `avocado/plugins/runner.py` -/

/-- Python 2 `str.isspace` characters, as accepted around an integer
literal by `int(s, 16)`. -/
def py_isspace (c : Char) : Bool :=
  c == ' ' || c == '\t' || c == '\n' || c == '\x0b' || c == '\x0c' || c == '\r'

/-- Hexadecimal digit test, `[0-9a-fA-F]`. -/
def is_hex_digit (c : Char) : Bool :=
  decide (('0' ≤ c ∧ c ≤ '9') ∨ ('a' ≤ c ∧ c ≤ 'f') ∨ ('A' ≤ c ∧ c ≤ 'F'))

/-- Numeric value of a hexadecimal digit. -/
def hex_val (c : Char) : Nat :=
  if '0' ≤ c ∧ c ≤ '9' then c.toNat - 48
  else if 'a' ≤ c ∧ c ≤ 'f' then c.toNat - 87
  else c.toNat - 55

/-- Optional leading sign of a Python integer literal. -/
def parse_sign : List Char → Int × List Char
  | '+' :: rest => (1, rest)
  | '-' :: rest => (-1, rest)
  | l => (1, l)

/-- Optional `0x`/`0X` prefix accepted by Python `int(s, 16)`. -/
def strip_hex_marker : List Char → List Char
  | '0' :: 'x' :: rest => rest
  | '0' :: 'X' :: rest => rest
  | l => l

/-- Python 2 `int(s, 16)`: optional surrounding whitespace, an optional
sign, an optional `0x`/`0X` prefix, then at least one hexadecimal digit;
anything else raises `ValueError` (here `none`). -/
def py_int16 (s : String) : Option Int :=
  let l0 := s.toList.dropWhile py_isspace
  let signed := parse_sign l0
  let l1 := strip_hex_marker signed.2
  let digits := l1.takeWhile is_hex_digit
  let rest := (l1.dropWhile is_hex_digit).dropWhile py_isspace
  if digits = [] then none
  else if rest = [] then
    some (signed.1 * Int.ofNat (digits.foldl (fun a c => 16 * a + hex_val c) 0))
  else none

/-- The validation block of `TestRunner.run`: `int(args.unique_job_id, 16)`
followed by a length check; any exception (a `ValueError` from `int`, or
the `Exception` raised when the length is not 40) is caught by the bare
`except:` and leads to rejection. `none` models an absent
`--force-job-id`, which skips validation. -/
def unique_job_id_valid (unique_job_id : Option String) : Bool :=
  match unique_job_id with
  | none => true
  | some s =>
    match py_int16 s with
    | none => false
    | some _ => s.length == 40

/-- Outcome of `TestRunner.run`: the returned code and whether a
`job.Job` was created (i.e. validation did not return `-1` early). -/
structure JobRunOutcome where
  return_code : Int
  job_created : Bool
deriving DecidableEq, Repr

/-- `TestRunner.run(args)`: rejects an invalid `unique_job_id` with `-1`
before any job is created; otherwise creates the job and returns its
result (`job_rc` abstracts `job_instance.run()`). -/
def TestRunner_run (unique_job_id : Option String) (job_rc : Int) :
    JobRunOutcome :=
  if unique_job_id_valid unique_job_id then
    { return_code := job_rc, job_created := true }
  else
    { return_code := -1, job_created := false }

/-- The pattern `^[0-9a-fA-F]{40}$` from the claim: exactly 40 hexadecimal
characters. -/
def matches_hex40 (s : String) : Bool :=
  s.length == 40 && s.toList.all is_hex_digit

/-- A 40-character identifier that is not 40 hexadecimal characters: the
literal `0x` marker followed by 38 `f`s. -/
def bad_job_id : String :=
  String.mk ('0' :: 'x' :: List.replicate 38 'f')

/-! ## Embedding of `avocado/plugins/gdb.py` -/

/-- The `avocado.runtime` module-level state written by `GDB.activate`. -/
structure Runtime where
  GDB_RUN_BINARY_NAMES_EXPR : List String
  GDB_ENABLE_CORE : Bool
  GDB_PATH : Option String
deriving DecidableEq, Repr

/-- The `app_args` namespace as `GDB.activate` reads it: each field is
`none` when the corresponding attribute is absent, in which case the
Python attribute access raises `AttributeError`. -/
structure AppArgs where
  gdb_run_bin : Option (List String)
  gdb_enable_core : Option Bool
  gdb_path : Option String
deriving DecidableEq, Repr

/-- The `for binary in app_args.gdb_run_bin:` loop: appends each binary, in
order, to `runtime.GDB_RUN_BINARY_NAMES_EXPR`. -/
def append_run_bins : List String → Runtime → Runtime
  | [], st => st
  | b :: rest, st =>
    append_run_bins rest
      { st with GDB_RUN_BINARY_NAMES_EXPR := st.GDB_RUN_BINARY_NAMES_EXPR ++ [b] }

/-- The `try:` block of `GDB.activate`, executed statement by statement on
the `avocado.runtime` state. The second component records whether an
`AttributeError` was raised (by the first missing attribute); the first
component is the runtime state at that point, since mutations already
performed are not rolled back. -/
def GDB.activate_try (app_args : AppArgs) (st : Runtime) : Runtime × Bool :=
  match app_args.gdb_run_bin with
  | none => (st, true)
  | some bins =>
    let st1 := append_run_bins bins st
    match app_args.gdb_enable_core with
    | none => (st1, true)
    | some enable_core =>
      let st2 := if enable_core then { st1 with GDB_ENABLE_CORE := true } else st1
      match app_args.gdb_path with
      | none => (st2, true)
      | some p => ({ st2 with GDB_PATH := some p }, false)

/-- `GDB.activate(app_args)`: runs the `try:` block and swallows any
`AttributeError` with `except AttributeError: pass`, keeping whatever
state mutations already happened. -/
def GDB.activate (app_args : AppArgs) (st : Runtime) : Runtime :=
  (GDB.activate_try app_args st).1

/-- The fixed `default_gdb_path` in `GDB.configure`. -/
def default_gdb_path : String := "/usr/bin/gdb"

/-- The gdb-path resolution in `GDB.configure`: tries
`process.find_command('gdb')` and falls back to `default_gdb_path` exactly
on `CmdNotFoundError`; any other exception (such as the `KeyError` from an
unset `PATH`) propagates. -/
def GDB_configure_gdb_path (env_path : Option String) (fs : FS) :
    Except FindFailure String :=
  match find_command env_path fs "gdb" with
  | Except.ok system_gdb_path => Except.ok system_gdb_path
  | Except.error (FindFailure.CmdNotFoundError _ _) => Except.ok default_gdb_path
  | Except.error e => Except.error e

/-! ## Helper lemmas -/

theorem mem_misc_unique_aux (x : String) (l : List String) :
    ∀ seen, x ∈ misc_unique_aux seen l ↔ (x ∈ l ∧ x ∉ seen) := by
  induction l with
  | nil => intro seen; simp [misc_unique_aux]
  | cons y ys ih =>
    intro seen
    by_cases hy : y ∈ seen
    · rw [misc_unique_aux, if_pos hy, ih seen]
      simp only [List.mem_cons]
      constructor
      · rintro ⟨hxy, hxs⟩
        exact ⟨Or.inr hxy, hxs⟩
      · rintro ⟨hor, hxs⟩
        rcases hor with h1 | h2
        · exact absurd (h1.symm ▸ hy) hxs
        · exact ⟨h2, hxs⟩
    · rw [misc_unique_aux, if_neg hy]
      simp only [List.mem_cons, ih (y :: seen)]
      by_cases hxy : x = y
      · subst hxy
        simp [hy]
      · simp [hxy]

theorem misc_unique_aux_sublist (l : List String) :
    ∀ seen, List.Sublist (misc_unique_aux seen l) l := by
  induction l with
  | nil => intro seen; simp [misc_unique_aux]
  | cons y ys ih =>
    intro seen
    rw [misc_unique_aux]
    by_cases hy : y ∈ seen
    · rw [if_pos hy]
      exact (ih seen).cons y
    · rw [if_neg hy]
      exact (ih (y :: seen)).cons₂ y

theorem misc_unique_aux_nodup (l : List String) :
    ∀ seen, (misc_unique_aux seen l).Nodup := by
  induction l with
  | nil => intro seen; simp [misc_unique_aux]
  | cons y ys ih =>
    intro seen
    rw [misc_unique_aux]
    by_cases hy : y ∈ seen
    · rw [if_pos hy]
      exact ih seen
    · rw [if_neg hy]
      refine List.nodup_cons.mpr ⟨?_, ih (y :: seen)⟩
      intro hmem
      exact ((mem_misc_unique_aux y ys (y :: seen)).mp hmem).2 (List.mem_cons_self y seen)

theorem find_loop_eq_find? (fs : FS) (cmd : String) (l : List String) :
    find_loop fs cmd l =
      (l.find? (fun d => fs.isfile (os_path_join d cmd))).map
        (fun d => fs.abspath (os_path_join d cmd)) := by
  induction l with
  | nil => rfl
  | cons d rest ih =>
    rw [find_loop, List.find?]
    cases h : fs.isfile (os_path_join d cmd) with
    | true => simp [h]
    | false => simp [h, ih]

theorem find_command_some (path_value : String) (fs : FS) (cmd : String) :
    find_command (some path_value) fs cmd =
      (match find_loop fs cmd (misc_unique (common_bin_paths ++ py_split_colon path_value)) with
       | some found => Except.ok found
       | none => Except.error (FindFailure.CmdNotFoundError cmd
           (misc_unique (common_bin_paths ++ py_split_colon path_value)))) := rfl

theorem append_run_bins_names (bins : List String) :
    ∀ st : Runtime,
      append_run_bins bins st =
        { st with GDB_RUN_BINARY_NAMES_EXPR := st.GDB_RUN_BINARY_NAMES_EXPR ++ bins } := by
  induction bins with
  | nil => intro st; simp [append_run_bins]
  | cons b rest ih =>
    intro st
    rw [append_run_bins, ih]
    simp [List.append_assoc]

/-! ## Claim theorems -/

/-- C1: the job-id validation in `TestRunner.run` does not implement the
pattern `^[0-9a-fA-F]{40}$`. Python `int(s, 16)` also accepts a `0x`
marker (and signs and surrounding whitespace), so the 40-character string
`"0x" ++ 38 * "f"` — which is not 40 hexadecimal characters — passes
validation and the job is created, contradicting the claimed rejection of
every non-matching identifier. -/
theorem unique_job_id_accepts_non_hex40 :
    bad_job_id.length = 40 ∧
    matches_hex40 bad_job_id = false ∧
    unique_job_id_valid (some bad_job_id) = true ∧
    TestRunner_run (some bad_job_id) 0 = { return_code := 0, job_created := true } := by
  decide

/-- C2: for a non-zero child exit status, `run` raises `CmdError` carrying
the full `CmdResult` (command line, exit status, complete stdout and
stderr) when `ignore_status` is false, and returns that same `CmdResult`
without raising when `ignore_status` is true; for a zero exit status it
returns the `CmdResult` regardless of `ignore_status`. -/
theorem run_exit_status_contract (cmd : String) (verbose : Bool)
    (proc : ProcessOutcome) :
    (proc.returncode ≠ 0 →
        run cmd verbose false proc = Except.error
          { command := cmd,
            result :=
              { command := cmd, exit_status := some proc.returncode,
                stdout := proc.stdout, stderr := proc.stderr,
                duration := proc.duration } }) ∧
    (proc.returncode ≠ 0 →
        run cmd verbose true proc = Except.ok
          { command := cmd, exit_status := some proc.returncode,
            stdout := proc.stdout, stderr := proc.stderr,
            duration := proc.duration }) ∧
    (proc.returncode = 0 → ∀ ignore_status,
        run cmd verbose ignore_status proc = Except.ok
          { command := cmd, exit_status := some proc.returncode,
            stdout := proc.stdout, stderr := proc.stderr,
            duration := proc.duration }) := by
  refine ⟨fun h => ?_, fun h => ?_, fun h ignore_status => ?_⟩
  · have hb : (proc.returncode != 0) = true := by simpa using h
    simp [run, hb]
  · simp [run]
  · simp [run, h]

/-- A failing child process: exit status 1 with captured output. -/
def proc_fail : ProcessOutcome :=
  { returncode := 1, stdout := "out", stderr := "err", duration := 2 }

/-- A passing child process: exit status 0 with captured output. -/
def proc_pass : ProcessOutcome :=
  { returncode := 0, stdout := "fixed", stderr := "", duration := 1 }

/-- Witness for C2 at concrete inputs. -/
theorem run_exit_status_contract_witness :
    run "mycmd arg" true false proc_fail = Except.error
      { command := "mycmd arg",
        result :=
          { command := "mycmd arg", exit_status := some 1,
            stdout := "out", stderr := "err", duration := 2 } } ∧
    run "mycmd arg" true true proc_fail = Except.ok
      { command := "mycmd arg", exit_status := some 1,
        stdout := "out", stderr := "err", duration := 2 } ∧
    run "mycmd arg" true false proc_pass = Except.ok
      { command := "mycmd arg", exit_status := some 0,
        stdout := "fixed", stderr := "", duration := 1 } :=
  ⟨(run_exit_status_contract "mycmd arg" true proc_fail).1 (by decide),
   (run_exit_status_contract "mycmd arg" true proc_fail).2.1 (by decide),
   (run_exit_status_contract "mycmd arg" true proc_pass).2.2 (by decide) false⟩

/-- C3: `find_command` searches the concatenation of the fixed standard
binary directories with the `PATH` directories, with duplicates removed
preserving first-seen order (the searched list has no duplicates, is an
order-preserving sublist of the concatenation, and keeps exactly its
members), and returns the absolute path of the join of the first searched
directory holding the command as a regular file. -/
theorem find_command_search_contract (path_value : String) (fs : FS)
    (cmd : String) :
    (misc_unique (common_bin_paths ++ py_split_colon path_value)).Nodup ∧
    List.Sublist (misc_unique (common_bin_paths ++ py_split_colon path_value))
      (common_bin_paths ++ py_split_colon path_value) ∧
    (∀ d, d ∈ misc_unique (common_bin_paths ++ py_split_colon path_value) ↔
        d ∈ common_bin_paths ++ py_split_colon path_value) ∧
    find_command (some path_value) fs cmd =
      (match (misc_unique (common_bin_paths ++ py_split_colon path_value)).find?
          (fun d => fs.isfile (os_path_join d cmd)) with
       | some d => Except.ok (fs.abspath (os_path_join d cmd))
       | none => Except.error (FindFailure.CmdNotFoundError cmd
           (misc_unique (common_bin_paths ++ py_split_colon path_value)))) := by
  refine ⟨misc_unique_aux_nodup _ [], misc_unique_aux_sublist _ [], ?_, ?_⟩
  · intro d
    rw [misc_unique, mem_misc_unique_aux]
    simp
  · rw [find_command_some, find_loop_eq_find?]
    cases hf : (misc_unique (common_bin_paths ++ py_split_colon path_value)).find?
        (fun d => fs.isfile (os_path_join d cmd)) <;> simp [hf]

/-- A filesystem with no regular files; `abspath` is the identity. -/
def fs_empty : FS := { isfile := fun _ => false, abspath := fun p => p }

/-- C4: with `PATH` unset, `os.environ['PATH']` raises `KeyError`, which
the `except IndexError:` clause of `find_command` does not catch, so
`find_command` fails with `KeyError` — not with `CmdNotFoundError` over
the fixed standard directories as the claim states. -/
theorem find_command_unset_path_raises_keyerror :
    find_command none fs_empty "ls" = Except.error (FindFailure.KeyError "PATH") ∧
    (∀ paths, FindFailure.KeyError "PATH" ≠
        FindFailure.CmdNotFoundError "ls" paths) := by
  refine ⟨rfl, ?_⟩
  intro paths h
  exact FindFailure.noConfusion h

/-- C5: the `CmdResult` that `run` publishes (returned, or embedded in the
raised `CmdError`) carries `exit_status = some returncode` together with
the fully drained streams, and equals the last intermediate state of the
`result` variable; the constructor default leaves `exit_status = none`
before the process terminates; and in `run`'s body the stream-draining
`communicate()` call precedes the `exit_status` assignment. -/
theorem exit_status_publication_invariant (cmd : String)
    (verbose ignore_status : Bool) (proc : ProcessOutcome) :
    ((run_result_states cmd proc).head? = some (CmdResult.init cmd) ∧
      (CmdResult.init cmd).exit_status = none) ∧
    ((run_published_result cmd verbose ignore_status proc).exit_status
        = some proc.returncode ∧
      (run_published_result cmd verbose ignore_status proc).stdout = proc.stdout ∧
      (run_published_result cmd verbose ignore_status proc).stderr = proc.stderr ∧
      run_published_result cmd verbose ignore_status proc
        = ((run_result_states cmd proc).getLast?).getD (CmdResult.init cmd)) ∧
    run_steps.findIdx (fun s => s == RunStep.communicate) <
      run_steps.findIdx (fun s => s == RunStep.assignExitStatus) := by
  refine ⟨⟨rfl, rfl⟩, ?_, by decide⟩
  have hpub : run_published_result cmd verbose ignore_status proc =
      { command := cmd, exit_status := some proc.returncode,
        stdout := proc.stdout, stderr := proc.stderr,
        duration := proc.duration } := by
    unfold run_published_result run
    cases hb : (proc.returncode != 0 && !ignore_status) <;> rfl
  rw [hpub]
  exact ⟨rfl, rfl, rfl, rfl⟩

/-- C6: the gdb-path resolution in `GDB.configure` uses the found path when
the command-location search succeeds, falls back to the fixed default
`/usr/bin/gdb` exactly when the search raises `CmdNotFoundError`, and
propagates any other failure of the search unchanged. -/
theorem gdb_path_fallback_iff_not_found (env_path : Option String) (fs : FS) :
    (∀ p, find_command env_path fs "gdb" = Except.ok p →
        GDB_configure_gdb_path env_path fs = Except.ok p) ∧
    (∀ c paths, find_command env_path fs "gdb"
          = Except.error (FindFailure.CmdNotFoundError c paths) →
        GDB_configure_gdb_path env_path fs = Except.ok default_gdb_path) ∧
    (∀ k, find_command env_path fs "gdb"
          = Except.error (FindFailure.KeyError k) →
        GDB_configure_gdb_path env_path fs
          = Except.error (FindFailure.KeyError k)) := by
  refine ⟨fun p h => ?_, fun c paths h => ?_, fun k h => ?_⟩ <;>
    · unfold GDB_configure_gdb_path
      rw [h]

/-- A filesystem on which every path is a regular file; `abspath` is the
identity. -/
def fs_all_files : FS := { isfile := fun _ => true, abspath := fun p => p }

/-- Witness for C6: a successful search, a failed search falling back to
the default, and an unset `PATH` propagating the `KeyError`. -/
theorem gdb_path_fallback_iff_not_found_witness :
    GDB_configure_gdb_path (some "") fs_all_files = Except.ok "/usr/libexec/gdb" ∧
    GDB_configure_gdb_path (some "") fs_empty = Except.ok default_gdb_path ∧
    GDB_configure_gdb_path none fs_empty
      = Except.error (FindFailure.KeyError "PATH") :=
  ⟨(gdb_path_fallback_iff_not_found (some "") fs_all_files).1 "/usr/libexec/gdb" rfl,
   (gdb_path_fallback_iff_not_found (some "") fs_empty).2.1 "gdb"
     (common_bin_paths ++ [""]) rfl,
   (gdb_path_fallback_iff_not_found none fs_empty).2.2 "PATH" rfl⟩

/-- C7: `GDB.activate` appends every registered `binary[:breakpoint]`
string to the process-wide rule list in registration order; in particular,
registering `binary:foo` then `binary:bar` keeps both rules in that order
instead of the second replacing the first. -/
theorem activate_appends_run_bins (bins : List String)
    (enable_core : Option Bool) (path_arg : Option String) (st : Runtime) :
    (GDB.activate (AppArgs.mk (some bins) enable_core path_arg)
        st).GDB_RUN_BINARY_NAMES_EXPR
      = st.GDB_RUN_BINARY_NAMES_EXPR ++ bins ∧
    (GDB.activate (AppArgs.mk (some ["binary:foo", "binary:bar"]) enable_core
        path_arg) st).GDB_RUN_BINARY_NAMES_EXPR
      = st.GDB_RUN_BINARY_NAMES_EXPR ++ ["binary:foo", "binary:bar"] := by
  constructor <;>
  · simp only [GDB.activate, GDB.activate_try, append_run_bins_names]
    cases enable_core with
    | none => rfl
    | some ec => cases ec <;> cases path_arg <;> rfl

/-- C8: the process-wide core-dump flag after `GDB.activate` is the old
flag OR-ed with whether the enable option was both reachable and set, so
`activate` never assigns `False`: once the flag is `True` it stays `True`
across every later `activate` call. -/
theorem activate_core_dump_monotonic (app_args : AppArgs) (st : Runtime) :
    (GDB.activate app_args st).GDB_ENABLE_CORE
      = (st.GDB_ENABLE_CORE ||
          (app_args.gdb_run_bin.isSome && app_args.gdb_enable_core == some true)) := by
  rcases app_args with ⟨rb, ec, gp⟩
  cases rb with
  | none => simp [GDB.activate, GDB.activate_try]
  | some bins =>
    cases ec with
    | none => simp [GDB.activate, GDB.activate_try, append_run_bins_names]
    | some b =>
      cases b <;> cases gp <;>
        simp [GDB.activate, GDB.activate_try, append_run_bins_names]

/-- C9: `system` returns exactly the `exit_status` field of the `run`
result and `system_output` exactly its `stdout` field, each propagating
the `CmdError` raised by the very same `run` call and adding no behavior
of its own. -/
theorem system_wrappers_refine_run (cmd : String) (verbose ignore_status : Bool)
    (proc : ProcessOutcome) :
    system cmd verbose ignore_status proc
        = Except.map (fun r => r.exit_status) (run cmd verbose ignore_status proc) ∧
    system_output cmd verbose ignore_status proc
        = Except.map (fun r => r.stdout) (run cmd verbose ignore_status proc) := by
  refine ⟨?_, ?_⟩
  · unfold system
    cases run cmd verbose ignore_status proc <;> rfl
  · unfold system_output
    cases run cmd verbose ignore_status proc <;> rfl

/-- C10: `GDB.activate` swallows the `AttributeError` raised by a missing
gdb attribute (it always returns a runtime state), but is not atomic: the
binaries already appended, and a core-dump flag already set, before the
missing attribute was accessed stay in place and are not rolled back. -/
theorem activate_swallows_attribute_error_not_atomic (st : Runtime)
    (bins : List String) (core_arg : Option Bool) (path_arg : Option String) :
    (GDB.activate_try (AppArgs.mk none core_arg path_arg) st).2 = true ∧
    GDB.activate (AppArgs.mk none core_arg path_arg) st = st ∧
    (GDB.activate_try (AppArgs.mk (some bins) none path_arg) st).2 = true ∧
    GDB.activate (AppArgs.mk (some bins) none path_arg) st
      = { st with
          GDB_RUN_BINARY_NAMES_EXPR := st.GDB_RUN_BINARY_NAMES_EXPR ++ bins } ∧
    (GDB.activate_try (AppArgs.mk (some bins) (some true) none) st).2 = true ∧
    GDB.activate (AppArgs.mk (some bins) (some true) none) st
      = { st with
          GDB_RUN_BINARY_NAMES_EXPR := st.GDB_RUN_BINARY_NAMES_EXPR ++ bins,
          GDB_ENABLE_CORE := true } := by
  refine ⟨rfl, rfl, ?_, ?_, ?_, ?_⟩ <;>
    simp [GDB.activate, GDB.activate_try, append_run_bins_names]
